import Mathlib

/-!
Verification of the runas library (elevated process launching) against its
specification.  The Rust sources embedded here are:

* src/lib.rs          - the Command builder and its spawn/status entry points
* src/impl_unix.rs    - the Unix sudo launch strategy (spawn_impl)
* src/impl_windows.rs - the Windows shell-elevation launch strategy (runas_impl)

OS strings (Rust OsString) are modelled as lists of platform code units
(on Windows these are the UTF-16 units returned by encode_wide).  OS calls
(which, process spawn, CoInitializeEx, ShellExecuteExW, WaitForSingleObject,
GetExitCodeProcess, CoUninitialize) are modelled by an oracle structure
recording what each call would return, and each launch function additionally
returns the ordered trace of OS calls it performed, so that claims about
which calls happen on which paths can be stated.
-/

namespace Runas

/-- A raw platform string: the sequence of its OS code units
(UTF-16 code units on Windows, where to_string_lossy / encode_wide are used). -/
abbrev OsString := List Nat

/-- Embeds a Lean string literal (valid Unicode, in practice ASCII here) as the
corresponding OS string, one code unit per scalar value below 0x10000. -/
def strToOs (s : String) : OsString := s.data.map Char.toNat

/-- Rust char::REPLACEMENT_CHARACTER, substituted by lossy decoding. -/
def replacementChar : Char := '�'

/-- Lossy UTF-16 decoding, as performed by OsStr::to_string_lossy on Windows:
well-formed units and surrogate pairs decode to their scalar values, and every
unpaired surrogate becomes the replacement character. -/
def decodeUtf16Lossy : List Nat → List Char
  | [] => []
  | [u] =>
    if u < 0xD800 ∨ 0xDFFF < u then [Char.ofNat u] else [replacementChar]
  | u :: u2 :: rest =>
    if u < 0xD800 ∨ 0xDFFF < u then
      Char.ofNat u :: decodeUtf16Lossy (u2 :: rest)
    else if u < 0xDC00 then
      if 0xDC00 ≤ u2 ∧ u2 ≤ 0xDFFF then
        Char.ofNat (0x10000 + (u - 0xD800) * 0x400 + (u2 - 0xDC00)) ::
          decodeUtf16Lossy rest
      else
        replacementChar :: decodeUtf16Lossy (u2 :: rest)
    else
      replacementChar :: decodeUtf16Lossy (u2 :: rest)

/-- UTF-16 encoding of one scalar value (Rust char::encode_utf16). -/
def charToUtf16 (c : Char) : List Nat :=
  if c.toNat < 0x10000 then [c.toNat]
  else [0xD800 + (c.toNat - 0x10000) / 0x400, 0xDC00 + (c.toNat - 0x10000) % 0x400]

/-- UTF-16 encoding of a character sequence (encode_wide on a Rust String). -/
def encodeUtf16 (l : List Char) : List Nat := l.flatMap charToUtf16

/-! ## The Command builder (src/lib.rs) -/

/-- The Command configuration struct of src/lib.rs lines 103-110. -/
structure Command where
  command : OsString
  args : List OsString
  current_dir : Option OsString
  force_prompt : Bool
  hide : Bool
  gui : Bool
deriving DecidableEq

/-- Command::new (src/lib.rs lines 145-154): the default configuration. -/
def Command.new (program : OsString) : Command :=
  { command := program
  , args := []
  , current_dir := none
  , hide := false
  , gui := false
  , force_prompt := true }

/-- Command::arg (src/lib.rs lines 192-195): appends one argument. -/
def Command.addArg (c : Command) (a : OsString) : Command :=
  { c with args := c.args ++ [a] }

/-- Command::current_dir (src/lib.rs lines 246-249): sets the working
directory override.  Named setCurrentDir because the field keeps the
source name current_dir. -/
def Command.setCurrentDir (c : Command) (dir : OsString) : Command :=
  { c with current_dir := some dir }

/-! ## The Windows argument encoder (src/impl_windows.rs lines 12-31)

The Rust code builds one parameter String imperatively: for each argument it
pushes a space, then either a literal pair of double quotes (empty argument),
the argument verbatim (no space, tab or double quote present), or the argument
wrapped in double quotes with each backslash doubled and each double quote
escaped.  A Rust String is modelled by its character list. -/

/-- The body of the escaping loop for one argument (already lossily decoded),
mirroring the push / push_str calls of impl_windows.rs lines 15-30.
Rust's arg.len() == 0 test is a byte-length test, which holds exactly when
the character list is empty. -/
def pushArg (params : List Char) (arg : List Char) : List Char :=
  let params := params ++ [' ']
  if arg.length == 0 then
    params ++ "\"\"".data
  else if (arg.find? fun c => c == ' ' || c == '\t' || c == '"').isNone then
    params ++ arg
  else
    let params := params ++ ['"']
    let params := arg.foldl
      (fun p c =>
        if c == '\\' then p ++ "\\\\".data
        else if c == '"' then p ++ "\\\"".data
        else p ++ [c]) params
    params ++ ['"']

/-- The full parameter string built by the loop of impl_windows.rs lines
13-31: each raw argument is lossily decoded and escaped into the
accumulator, starting from the empty string. -/
def buildParams (args : List OsString) : List Char :=
  args.foldl (fun params arg => pushArg params (decodeUtf16Lossy arg)) []

/-- Per-character escaping inside a quoted argument (the match of
impl_windows.rs lines 23-27). -/
def escapeChar (c : Char) : List Char :=
  if c == '\\' then "\\\\".data
  else if c == '"' then "\\\"".data
  else [c]

/-- The encoding of a single argument, as a standalone function: empty
arguments become a literal pair of double quotes, arguments free of space,
tab and double quote are kept verbatim, all others are quoted with
backslashes doubled and double quotes escaped. -/
def encodeArg (arg : List Char) : List Char :=
  if arg.length == 0 then
    "\"\"".data
  else if (arg.find? fun c => c == ' ' || c == '\t' || c == '"').isNone then
    arg
  else
    '"' :: arg.flatMap escapeChar ++ ['"']

/-! ## The Windows launch strategy (src/impl_windows.rs) -/

/-- HRESULT success test: winapi's SUCCEEDED(hr) is hr >= 0 on the signed
32-bit result. -/
def SUCCEEDED (hr : Int) : Bool := decide (0 ≤ hr)

def SEE_MASK_NOASYNC : Nat := 0x00000100
def SEE_MASK_NOCLOSEPROCESS : Nat := 0x00000040
def COINIT_APARTMENTTHREADED : Nat := 0x2
def COINIT_DISABLE_OLE1DDE : Nat := 0x4
def SW_HIDE : Int := 0
def SW_NORMAL : Int := 1
def INFINITE : Nat := 0xFFFFFFFF

/-- The wide string passed as lpVerb: the literal "runas" with its embedded
NUL terminator, UTF-16 encoded (impl_windows.rs line 60). -/
def runasVerb : List Nat := encodeUtf16 "runas".data ++ [0]

/-- The input fields of the SHELLEXECUTEINFOW descriptor built at
impl_windows.rs lines 57-73.  Pointer fields hold none for a null pointer.
The remaining fields of the Rust struct (cbSize, dwHotKey, hInstApp,
hMonitor, hProcess, hkeyClass, hwnd, lpClass, lpIDList) are set to the
struct size, zero or null in the source and are output or unused fields,
so they are not modelled. -/
structure ShellExecuteInfo where
  fMask : Nat
  lpVerb : Option (List Nat)
  lpFile : List Nat
  lpParameters : List Nat
  nShow : Int
  lpDirectory : Option OsString
deriving DecidableEq

/-- The descriptor runas_impl populates for a given configuration:
lpFile is the NUL-terminated wide program path, lpParameters the
NUL-terminated wide escaped parameter string, nShow follows the hide flag,
lpVerb is always the runas verb and lpDirectory is always null. -/
def makeSei (cmd : Command) : ShellExecuteInfo :=
  { fMask := SEE_MASK_NOASYNC ||| SEE_MASK_NOCLOSEPROCESS
  , lpVerb := some runasVerb
  , lpFile := cmd.command ++ [0]
  , lpParameters := encodeUtf16 (buildParams cmd.args) ++ [0]
  , nShow := if cmd.hide then SW_HIDE else SW_NORMAL
  , lpDirectory := none }

/-- Oracle for the Windows OS calls made by runas_impl: what each call
would return on this execution. -/
structure WinOS where
  coInitResult : Int
  shellExecOk : Bool
  processHandleValid : Bool
  exitCodeOk : Bool
  exitCode : Nat
  lastOsError : Int
deriving DecidableEq

/-- One OS call performed by runas_impl, in order: CoInitializeEx,
ShellExecuteExW with the populated descriptor, WaitForSingleObject with its
timeout, GetExitCodeProcess, CoUninitialize. -/
inductive WinEvent where
  | coInit (flags : Nat)
  | shellExec (sei : ShellExecuteInfo)
  | waitProc (timeout : Nat)
  | getExitCode
  | coUninit
deriving DecidableEq

/-- runas_impl (src/impl_windows.rs lines 11-94): builds the escaped
parameter string and the descriptor, calls CoInitializeEx, always calls
ShellExecuteExW, and on a successful shell execute (TRUE return and a
non-null process handle) waits on the process handle with an infinite
timeout and queries its exit code; CoUninitialize runs exactly when the
CoInitializeEx result satisfies SUCCEEDED; the final result is the exit
code on success and the last OS error otherwise.  Returns the io::Result
value paired with the trace of OS calls. -/
def runas_impl (cmd : Command) (os : WinOS) : Except Int Nat × List WinEvent :=
  let sei := makeSei cmd
  let shellOk := os.shellExecOk && os.processHandleValid
  let successful := shellOk && os.exitCodeOk
  let events :=
    [WinEvent.coInit (COINIT_APARTMENTTHREADED ||| COINIT_DISABLE_OLE1DDE),
     WinEvent.shellExec sei]
    ++ (if shellOk then [WinEvent.waitProc INFINITE, WinEvent.getExitCode] else [])
    ++ (if SUCCEEDED os.coInitResult then [WinEvent.coUninit] else [])
  ((if successful then Except.ok os.exitCode else Except.error os.lastOsError),
   events)

/-! ## The Unix launch strategy (src/impl_unix.rs) -/

/-- The io::ErrorKind values this library produces or observes. -/
inductive ErrorKind where
  | notFound
  | other
deriving DecidableEq

/-- An io::Error: its kind and message. -/
structure IoError where
  kind : ErrorKind
  msg : String
deriving DecidableEq

/-- A std::process::Child handle.  Its only capability used here is wait,
whose outcome (the child's exit status, or an error) is fixed by the OS at
spawn time and recorded in the handle. -/
structure Child where
  waitOutcome : Except IoError Nat

/-- Child::wait: blocks until the child exits and returns its status. -/
def Child.wait (c : Child) : Except IoError Nat := c.waitOutcome

/-- A std::process::Command builder, as used by spawn_impl: a program plus
accumulated arguments. -/
structure StdCommand where
  program : OsString
  argAcc : List OsString
deriving DecidableEq

/-- std::process::Command::new. -/
def StdCommand.new (p : OsString) : StdCommand := ⟨p, []⟩

/-- std::process::Command::arg: appends one argument. -/
def StdCommand.addArg (c : StdCommand) (a : OsString) : StdCommand :=
  { c with argAcc := c.argAcc ++ [a] }

/-- std::process::Command::args: appends a slice of arguments. -/
def StdCommand.addArgs (c : StdCommand) (as : List OsString) : StdCommand :=
  { c with argAcc := c.argAcc ++ as }

/-- The argv the OS receives from this builder: program first, then the
accumulated arguments in order. -/
def StdCommand.argv (c : StdCommand) : List OsString := c.program :: c.argAcc

/-- Oracle for the Unix OS calls made by spawn_impl: the result of
which("sudo") and, if a spawn is attempted, its outcome. -/
structure UnixOS where
  sudoPath : Option String
  spawnOutcome : Except IoError Child

/-- One OS interaction performed by spawn_impl: the which("sudo") lookup,
or an actual process creation with the given argv. -/
inductive UnixEvent where
  | whichSudo
  | spawnProcess (argv : List OsString)
deriving DecidableEq

/-- spawn_impl (src/impl_unix.rs lines 8-22): looks up sudo on the search
path; if found, builds the sudo invocation (sudo, -k when force_prompt is
set, the end-of-options marker, the program, then the arguments) and spawns
it; if absent, returns a NotFound error without spawning.  Returns the
io::Result value paired with the trace of OS interactions. -/
def spawn_impl (cmd : Command) (os : UnixOS) : Except IoError Child × List UnixEvent :=
  match os.sudoPath with
  | some _ =>
    let c := StdCommand.new (strToOs "sudo")
    let c := if cmd.force_prompt then c.addArg (strToOs "-k") else c
    let c := ((c.addArg (strToOs "--")).addArg cmd.command).addArgs cmd.args
    (os.spawnOutcome, [UnixEvent.whichSudo, UnixEvent.spawnProcess c.argv])
  | none =>
    (Except.error ⟨ErrorKind.notFound, "Command `sudo` not found"⟩,
     [UnixEvent.whichSudo])

/-- Command::spawn (src/lib.rs lines 331-339) on the Unix target: dispatches
to spawn_impl with a shared borrow of the configuration, so the
configuration after the call is the configuration before it.  Modelled in
state-passing style: the result and trace, paired with the post-call
configuration. -/
def Command.spawn (cmd : Command) (os : UnixOS) :
    (Except IoError Child × List UnixEvent) × Command :=
  (spawn_impl cmd os, cmd)

/-! ## Helper lemmas -/

/-- The imperative per-character escaping step appends exactly the
escapeChar expansion of the character. -/
theorem escStep_eq :
    (fun (p : List Char) (c : Char) =>
      if c == '\\' then p ++ "\\\\".data
      else if c == '"' then p ++ "\\\"".data
      else p ++ [c])
    = fun p c => p ++ escapeChar c := by
  funext p c
  by_cases h1 : c == '\\' <;> by_cases h2 : c == '"' <;>
    simp [escapeChar, h1, h2]

/-- Folding list-append of a pointwise expansion over a list concatenates
the expansions after the accumulator. -/
theorem foldl_append_flatMap {α : Type} (f : α → List Char) (l : List α) :
    ∀ acc : List Char, l.foldl (fun p a => p ++ f a) acc = acc ++ l.flatMap f := by
  induction l with
  | nil => intro acc; simp
  | cons x xs ih => intro acc; simp [List.foldl_cons, ih]

/-- The imperative escaping loop body equals: append a space, then the
standalone per-argument encoding. -/
theorem pushArg_eq (p a : List Char) : pushArg p a = p ++ ' ' :: encodeArg a := by
  unfold pushArg encodeArg
  simp only [escStep_eq]
  by_cases h0 : (a.length == 0) = true
  · simp [h0]
  · by_cases h1 : (a.find? fun c => c == ' ' || c == '\t' || c == '"').isNone = true
    · simp [h0, h1]
    · simp [h0, h1, foldl_append_flatMap]

/-- The full parameter string is the concatenation, over the arguments in
order, of a space followed by the encoding of the lossily decoded
argument. -/
theorem buildParams_eq (args : List OsString) :
    buildParams args
      = args.flatMap fun a => ' ' :: encodeArg (decodeUtf16Lossy a) := by
  unfold buildParams
  have h : (fun (params : List Char) (arg : OsString) =>
        pushArg params (decodeUtf16Lossy arg))
      = fun p a => p ++ (' ' :: encodeArg (decodeUtf16Lossy a)) := by
    funext p a; exact pushArg_eq p (decodeUtf16Lossy a)
  rw [h]
  exact foldl_append_flatMap _ args []

/-! ## Concrete fixtures -/

/-- A Windows OS oracle on which every call succeeds: COM init returns S_OK,
ShellExecuteExW returns TRUE with a valid process handle, and the exit code
query succeeds with exit code 7. -/
def winAllOk : WinOS :=
  { coInitResult := 0
  , shellExecOk := true
  , processHandleValid := true
  , exitCodeOk := true
  , exitCode := 7
  , lastOsError := 5 }

/-- A configuration with a working-directory override set. -/
def cmdWithDir : Command :=
  (Command.new (strToOs "C:\\prog.exe")).setCurrentDir (strToOs "C:\\work")

/-- A configuration whose target filename is a native executable. -/
def exeCmd : Command := Command.new (strToOs "C:\\tool.exe")

/-- Modelled from the spec: the claim's test that the target program's
filename already indicates it is a native executable, i.e. ends in ".exe"
(the source has no such test; this predicate only states the claim). -/
def filenameIsNativeExe (s : OsString) : Bool :=
  (strToOs ".exe").isSuffixOf s

/-- Modelled from the spec: joining a list of per-argument encodings with a
single space separator (and nothing else), as the claim's words describe. -/
def joinWithSingleSpace (parts : List (List Char)) : List Char :=
  (parts.intersperse [' ']).flatten

/-! ## Claims -/

/-- C1: the claim says every platform variant's launch returns as soon as
the OS has accepted the spawn request and a separate wait blocks until
termination.  The Windows variant contradicts this: its only entry point
runas_impl waits on the process handle with an INFINITE timeout inside the
launch call itself and returns the exit status directly, so launching a
fully succeeding command both performs the blocking wait and yields the
final exit code in one call. -/
theorem C1_windows_launch_waits_inline :
    (runas_impl (Command.new (strToOs "cmd")) winAllOk).2.contains
        (WinEvent.waitProc INFINITE) = true
    ∧ (runas_impl (Command.new (strToOs "cmd")) winAllOk).1 = Except.ok 7 := by
  constructor
  · decide
  · rfl

/-- C2 counterexample: a configuration with a working-directory override
set still reaches the shell-execute call with a null directory field, not
the configured directory. -/
theorem C2_counterexample :
    cmdWithDir.current_dir = some (strToOs "C:\\work")
    ∧ (runas_impl cmdWithDir winAllOk).2.contains
        (WinEvent.shellExec (makeSei cmdWithDir)) = true
    ∧ (makeSei cmdWithDir).lpDirectory ≠ some (strToOs "C:\\work") := by
  refine ⟨rfl, by decide, by decide⟩

/-- C2 (amended): for every configuration and OS behavior, the launch
passes the shell-execute descriptor with a null directory field, whether or
not a working-directory override is configured. -/
theorem C2_directory_always_null (cmd : Command) (os : WinOS) :
    WinEvent.shellExec (makeSei cmd) ∈ (runas_impl cmd os).2
    ∧ (makeSei cmd).lpDirectory = none := by
  constructor
  · unfold runas_impl
    simp
  · rfl

/-- C3 counterexample: the claim's "joined with a single space separator"
fails: already for one single safe argument the built parameter string
carries a leading space, which a plain single-space join does not. -/
theorem C3_counterexample :
    buildParams [strToOs "x"]
      ≠ joinWithSingleSpace
          ([strToOs "x"].map fun a => encodeArg (decodeUtf16Lossy a)) := by
  decide

/-- C3 (amended): the per-argument encodings are as claimed (empty becomes
a literal pair of double quotes, strings free of space, tab and double
quote are verbatim, all others are quoted with backslashes doubled and
double quotes escaped, with the two spec examples holding), but the
per-argument results are each preceded by a single space and concatenated,
i.e. joined by single spaces with one extra leading space. -/
theorem C3_argument_encoder :
    (∀ args : List OsString,
        buildParams args
          = (args.map fun a => ' ' :: encodeArg (decodeUtf16Lossy a)).flatten)
    ∧ encodeArg [] = "\"\"".data
    ∧ (∀ a : List Char, a ≠ [] → (∀ c ∈ a, c ≠ ' ' ∧ c ≠ '\t' ∧ c ≠ '"') →
        encodeArg a = a)
    ∧ (∀ a : List Char, (∃ c ∈ a, c = ' ' ∨ c = '\t' ∨ c = '"') →
        encodeArg a = '"' :: a.flatMap escapeChar ++ ['"'])
    ∧ encodeArg "a\"b".data = "\"a\\\"b\"".data
    ∧ encodeArg "a\\ b".data = "\"a\\\\ b\"".data := by
  refine ⟨?_, by decide, ?_, ?_, by decide, by decide⟩
  · intro args
    rw [buildParams_eq, List.flatMap_def]
  · intro a ha hall
    unfold encodeArg
    have h0 : (a.length == 0) = false := by
      simpa using fun h => ha (List.length_eq_zero.mp h)
    have h1 : (a.find? fun c => c == ' ' || c == '\t' || c == '"') = none := by
      rw [List.find?_eq_none]
      intro x hx
      rcases hall x hx with ⟨hs, ht, hq⟩
      simp [hs, ht, hq]
    simp [h0, h1]
  · rintro a ⟨c, hc, hor⟩
    have hsome : (a.find? fun c => c == ' ' || c == '\t' || c == '"').isSome := by
      rw [List.find?_isSome]
      exact ⟨c, hc, by rcases hor with h | h | h <;> simp [h]⟩
    have h0 : (a.length == 0) = false := by
      have : a ≠ [] := by
        intro h; subst h; exact absurd hc (List.not_mem_nil c)
      simpa using fun h => this (List.length_eq_zero.mp h)
    unfold encodeArg
    simp [h0, Option.isNone_iff_eq_none, Option.ne_none_iff_isSome.mpr hsome]

/-- C3 witness: a concrete safe argument is kept verbatim. -/
theorem C3_argument_encoder_witness : encodeArg "abc".data = "abc".data :=
  C3_argument_encoder.2.2.1 "abc".data (by decide) (by decide)

/-- C4 counterexample: even for a target whose filename indicates a native
executable, the descriptor reaching the shell-execute call carries the
elevation verb, not the default (absent) verb. -/
theorem C4_counterexample :
    filenameIsNativeExe exeCmd.command = true
    ∧ (runas_impl exeCmd winAllOk).2.contains
        (WinEvent.shellExec (makeSei exeCmd)) = true
    ∧ (makeSei exeCmd).lpVerb ≠ none := by
  refine ⟨by decide, by decide, by decide⟩

/-- C4 (amended): for every configuration and OS behavior, the descriptor
passed to the shell-execute call carries the elevation verb "runas"
(NUL-terminated, UTF-16 encoded), regardless of the target filename. -/
theorem C4_verb_always_runas (cmd : Command) (os : WinOS) :
    WinEvent.shellExec (makeSei cmd) ∈ (runas_impl cmd os).2
    ∧ (makeSei cmd).lpVerb = some runasVerb := by
  constructor
  · unfold runas_impl
    simp
  · rfl

/-- A Unix OS oracle with no sudo on the search path. -/
def noSudoOS : UnixOS :=
  { sudoPath := none
  , spawnOutcome := Except.error ⟨ErrorKind.other, "unused"⟩ }

/-- A successfully spawned child that exits with status 0. -/
def okChild : Child := ⟨Except.ok 0⟩

/-- A Unix OS oracle with sudo present and a successful spawn. -/
def sudoOS : UnixOS :=
  { sudoPath := some "/usr/bin/sudo", spawnOutcome := Except.ok okChild }

/-- A concrete configured command: program "apt" with one argument. -/
def aptCmd : Command := (Command.new (strToOs "apt")).addArg (strToOs "install")

/-- C5: when no sudo executable is discoverable, spawn returns the NotFound
error and its OS interaction trace is exactly the which lookup: no process
creation is ever attempted. -/
theorem C5_notfound_before_spawn (cmd : Command) (os : UnixOS)
    (h : os.sudoPath = none) :
    (spawn_impl cmd os).1
        = Except.error ⟨ErrorKind.notFound, "Command `sudo` not found"⟩
    ∧ (spawn_impl cmd os).2 = [UnixEvent.whichSudo] := by
  unfold spawn_impl
  rw [h]
  exact ⟨rfl, rfl⟩

/-- C5 witness: the NotFound path at a concrete configuration and oracle. -/
theorem C5_notfound_before_spawn_witness :
    (spawn_impl aptCmd noSudoOS).1
        = Except.error ⟨ErrorKind.notFound, "Command `sudo` not found"⟩
    ∧ (spawn_impl aptCmd noSudoOS).2 = [UnixEvent.whichSudo] :=
  C5_notfound_before_spawn aptCmd noSudoOS rfl

/-- C6: with sudo present, the spawned argv is exactly sudo, then -k if and
only if force_prompt holds, then the end-of-options marker, then the
program, then each configured argument verbatim in order; and a newly
constructed command defaults force_prompt to true. -/
theorem C6_sudo_argv (cmd : Command) (os : UnixOS) (p : String) (prog : OsString)
    (h : os.sudoPath = some p) :
    (spawn_impl cmd os).2
      = [UnixEvent.whichSudo,
         UnixEvent.spawnProcess
           (strToOs "sudo"
             :: ((if cmd.force_prompt then [strToOs "-k"] else [])
                 ++ (strToOs "--" :: cmd.command :: cmd.args)))]
    ∧ (Command.new prog).force_prompt = true := by
  constructor
  · unfold spawn_impl
    rw [h]
    by_cases hf : cmd.force_prompt <;>
      simp [hf, StdCommand.new, StdCommand.addArg, StdCommand.addArgs,
        StdCommand.argv]
  · rfl

/-- C6 witness: the argv at a concrete configuration and oracle. -/
theorem C6_sudo_argv_witness :
    (spawn_impl aptCmd sudoOS).2
      = [UnixEvent.whichSudo,
         UnixEvent.spawnProcess
           (strToOs "sudo"
             :: ((if aptCmd.force_prompt then [strToOs "-k"] else [])
                 ++ (strToOs "--" :: aptCmd.command :: aptCmd.args)))]
    ∧ (Command.new (strToOs "apt")).force_prompt = true :=
  C6_sudo_argv aptCmd sudoOS "/usr/bin/sudo" (strToOs "apt") rfl

/-- C7: on every execution path of the Windows launch (successful run,
failed shell execute, failed exit-code query), CoUninitialize runs exactly
once when the CoInitializeEx result satisfies SUCCEEDED, and never runs
when it does not. -/
theorem C7_com_teardown_gated (cmd : Command) (os : WinOS) :
    (runas_impl cmd os).2.count WinEvent.coUninit
      = if SUCCEEDED os.coInitResult then 1 else 0 := by
  unfold runas_impl
  by_cases h1 : (os.shellExecOk && os.processHandleValid) = true <;>
    by_cases h2 : SUCCEEDED os.coInitResult = true <;>
      simp [h1, h2, List.count_append, List.count_cons]

/-- C8: launching leaves the program, arguments and working-directory
fields of the configuration unchanged; relaunching from the post-launch
configuration is identical to launching from the original configuration;
and each of the two launches yields its own process handle whose exit
status is obtained from that handle alone. -/
theorem C8_config_reusable (cmd : Command) (os1 os2 : UnixOS)
    (c1 c2 : Child)
    (h1 : os1.spawnOutcome = Except.ok c1) (h2 : os2.spawnOutcome = Except.ok c2)
    (p1 p2 : String)
    (hs1 : os1.sudoPath = some p1) (hs2 : os2.sudoPath = some p2) :
    ((cmd.spawn os1).2).command = cmd.command
    ∧ ((cmd.spawn os1).2).args = cmd.args
    ∧ ((cmd.spawn os1).2).current_dir = cmd.current_dir
    ∧ ((cmd.spawn os1).2).spawn os2 = cmd.spawn os2
    ∧ (cmd.spawn os1).1.1 = Except.ok c1
    ∧ (((cmd.spawn os1).2).spawn os2).1.1 = Except.ok c2
    ∧ c1.wait = c1.waitOutcome
    ∧ c2.wait = c2.waitOutcome := by
  refine ⟨rfl, rfl, rfl, rfl, ?_, ?_, rfl, rfl⟩
  · show (spawn_impl cmd os1).1 = Except.ok c1
    unfold spawn_impl
    rw [hs1]
    exact h1
  · show (spawn_impl cmd os2).1 = Except.ok c2
    unfold spawn_impl
    rw [hs2]
    exact h2

/-- C8 witness: two launches of one concrete configuration. -/
theorem C8_config_reusable_witness :
    ((aptCmd.spawn sudoOS).2).command = aptCmd.command
    ∧ ((aptCmd.spawn sudoOS).2).args = aptCmd.args
    ∧ ((aptCmd.spawn sudoOS).2).current_dir = aptCmd.current_dir
    ∧ ((aptCmd.spawn sudoOS).2).spawn sudoOS = aptCmd.spawn sudoOS
    ∧ (aptCmd.spawn sudoOS).1.1 = Except.ok okChild
    ∧ (((aptCmd.spawn sudoOS).2).spawn sudoOS).1.1 = Except.ok okChild
    ∧ okChild.wait = okChild.waitOutcome
    ∧ okChild.wait = okChild.waitOutcome :=
  C8_config_reusable aptCmd sudoOS sudoOS okChild okChild rfl rfl
    "/usr/bin/sudo" "/usr/bin/sudo" rfl rfl

/-- C9: every argument is lossily decoded before escaping (a lone high or
low surrogate becomes the replacement character), so two distinct raw
argument strings can yield the same encoded parameter string: the encoder
is not injective on raw OS strings. -/
theorem C9_encoder_not_injective :
    decodeUtf16Lossy [0xD800] = [replacementChar]
    ∧ decodeUtf16Lossy [0xDC00] = [replacementChar]
    ∧ ∃ a b : OsString, a ≠ b ∧ buildParams [a] = buildParams [b] := by
  refine ⟨by decide, by decide, [0xD800], [0xDC00], by decide, by decide⟩

/-- C10: the shell-execute call is reached on every OS behavior, including
when COM initialization failed, and the launch result is unchanged under
any replacement of the COM initialization result: a failed initialization
never by itself makes the launch return an error. -/
theorem C10_shellexec_unconditional (cmd : Command) (os : WinOS) (hr : Int) :
    WinEvent.shellExec (makeSei cmd) ∈ (runas_impl cmd os).2
    ∧ (runas_impl cmd { os with coInitResult := hr }).1 = (runas_impl cmd os).1 := by
  constructor
  · unfold runas_impl
    simp
  · rfl

end Runas
